import Mathlib

/-!
# Garbage classifier front end: embedding of `app.js` and `script.js`

Two browser scripts drive a zero-shot image classifier.  Both take the first
entry of the backend's ranked list, round its score with
`Number(score.toFixed(4))` and render a JSON record.  `app.js` guards the
classifier behind the `modelReady` flag and catches classification errors;
`script.js` awaits a shared `classifierPromise`, submits prompts of the form
`photo of <label>` and removes that text again with `String.prototype.replace`.

Conventions of the embedding:
* JavaScript numbers are exact rationals (`ℚ`); NaN and the infinities are not
  represented.
* JavaScript strings are Lean strings, operated on through their character
  lists; strings with unpaired surrogates are not represented.  The only search
  pattern is plain ASCII, for which matching on characters and matching on
  UTF-16 code units agree.
* `JSON.stringify(record, ...)` is kept symbolic: a text node holds either
  plain text or the record that was serialised into it.
* `new Date().toISOString()` is the parameter `now`.
* The answers of the outside world (the pipeline load, the classifier call,
  the camera, the video element, the canvas) are parameters of type
  `Except String _`, the error being the `message` of the thrown `Error`.
-/

namespace GarbageClassifier

/-! ## Numbers: `Number(x.toFixed(4))` -/

/-- The method `Number.prototype.toFixed(4)` followed by `Number(...)`, on exact
rationals.  `toFixed` first takes the absolute value, returns `ToString(x)`
unchanged in value when it is at least `10^21`, and otherwise picks the integer
`n` with `n / 10^4` closest to it, the larger `n` on a tie; the sign is put
back in front of the digits. -/
def round4 (x : ℚ) : ℚ :=
  if (10 : ℚ) ^ 21 ≤ |x| then x
  else (if x < 0 then -1 else 1) * ((⌊|x| * 10000 + 1 / 2⌋ : ℤ) : ℚ) / 10000

/-! ## Strings: `indexOf` and `replace` with a string pattern -/

/-- The position of the first occurrence of `pat` in `s` (the abstract
operation `StringIndexOf(s, pat, 0)`), `none` when there is none. -/
def stringIndexOf (pat : List Char) : List Char → Option Nat
  | [] => if pat <+: [] then some 0 else none
  | c :: cs =>
    if pat <+: (c :: cs) then some 0
    else (stringIndexOf pat cs).map (· + 1)

/-- The method `String.prototype.replace(pat, rep)` for a string pattern and a
replacement without `$` patterns: only the first occurrence is replaced. -/
def jsReplace (s pat rep : String) : String :=
  match stringIndexOf pat.data s.data with
  | none => s
  | some pos => ⟨s.data.take pos ++ rep.data ++ s.data.drop (pos + pat.data.length)⟩

/-- The prompt template of `script.js`: the template literal with the label
spliced in after the words "photo of". -/
def promptOf (l : String) : String := "photo of " ++ l

/-- The expression `label.replace("photo of ", "")` of `script.js`. -/
def stripPrompt (label : String) : String := jsReplace label "photo of " ""

/-! ## Records shared by both scripts -/

/-- One entry of the list the classifier resolves to. -/
structure RankedScore where
  label : String
  score : ℚ
deriving DecidableEq

/-- What a text node holds: plain text, or the `JSON.stringify` rendering of a
record (kept symbolic). -/
inductive Content (ρ : Type) where
  | text (s : String)
  | json (r : ρ)
deriving DecidableEq

/-- Message of the `TypeError` raised by reading property `prop` of
`undefined` (the wording of V8). -/
def undefinedPropertyMessage (prop : String) : String :=
  "Cannot read properties of undefined (reading \x27" ++ prop ++ "\x27)"

/-- Message of the `TypeError` raised by calling `null` under the name `f`. -/
def notAFunctionMessage (f : String) : String := f ++ " is not a function"

/-! ## `app.js` -/

namespace App

/-- The constant `LABELS` of `app.js`. -/
def LABELS : List String :=
  [ "biodegradable waste such as food scraps, leaves, or vegetable peels",
    "non biodegradable waste such as plastic, glass, or metal",
    "recyclable waste such as paper, cardboard, or bottles",
    "organic waste like fruit or vegetable matter",
    "plastic waste like bottles, wrappers, or bags",
    "metal waste such as cans, wires, or tools",
    "paper waste such as newspapers or cartons",
    "glass waste such as jars, bulbs, or bottles" ]

/-- Assignment `o[k] = v` on an object kept as a list of own properties: an
existing key keeps its place and takes the new value, a new key goes last.
Only property reads are used below, never the enumeration order. -/
def objectSet (o : List (String × ℚ)) (k : String) (v : ℚ) : List (String × ℚ) :=
  match o with
  | [] => [(k, v)]
  | (k', v') :: rest =>
    if k' = k then (k, v) :: rest else (k', v') :: objectSet rest k v

/-- The function `Object.fromEntries`: the entries are assigned in order. -/
def objectFromEntries (entries : List (String × ℚ)) : List (String × ℚ) :=
  entries.foldl (fun o e => objectSet o e.1 e.2) []

/-- Property read `o[k]`, `none` standing for `undefined`. -/
def objectGet (o : List (String × ℚ)) (k : String) : Option ℚ :=
  (o.find? (fun e => e.1 = k)).map (·.2)

/-- The object `response` of `displayResult`. -/
structure Response where
  predicted_label : String
  confidence : ℚ
  all_scores : List (String × ℚ)
  timestamp : String
deriving DecidableEq

/-- Module variables, the DOM nodes the script touches, and three logs kept for
the proofs: the classifier invocations, the alerts, and `console.error`. -/
structure State where
  /-- Whether the variable `classifier` holds the pipeline (it starts as `null`). -/
  classifierLoaded : Bool
  modelReady : Bool
  /-- Text of the node `loader`. -/
  loaderText : String
  /-- Text of the node `outputBox`. -/
  outputText : Content Response
  /-- Whether the class list of `outputBox` contains `hidden`. -/
  outputHidden : Bool
  /-- Attribute `src` of the node `preview`; it stands for the image handle. -/
  previewSrc : String
  previewHidden : Bool
  /-- Every invocation `classifier(imgEl, LABELS)`: image and labels. -/
  calls : List (String × List String)
  alerts : List String
  consoleErrors : List String
  /-- Number of acquired media streams whose tracks have not been stopped. -/
  liveStreams : Nat
deriving DecidableEq

/-- The function `loadModel` up to its `await`: the loading text is set. -/
def loadModelBegin (st : State) : State :=
  { st with loaderText := "Loading model (may take 10–20s)..." }

/-- The module start: `classifier = null`, `modelReady = false`, then the call
`loadModel()` runs until its `await`. -/
def startup (dom : State) : State :=
  loadModelBegin { dom with classifierLoaded := false, modelReady := false }

/-- The rest of `loadModel` once `pipeline(...)` has settled.  There is no
`try`: on a rejection the remaining statements are skipped and the promise of
`loadModel` rejects with the same error, which nobody handles. -/
def loadModelEnd (loaded : Except String Unit) (st : State) : State × Except String Unit :=
  match loaded with
  | .error m => (st, .error m)
  | .ok _ =>
    ({ st with
        classifierLoaded := true
        loaderText := "Model loaded! You can upload or capture images now."
        modelReady := true }, .ok ())

/-- The function `loadModel` run to completion. -/
def loadModel (loaded : Except String Unit) (st : State) : State × Except String Unit :=
  loadModelEnd loaded (loadModelBegin st)

/-- The function `hideOutput`. -/
def hideOutput (st : State) : State :=
  { st with outputHidden := true, outputText := .text "" }

/-- The object literal of `displayResult`, for a first entry `top`. -/
def response (now : String) (top : RankedScore) (result : List RankedScore) : Response :=
  { predicted_label := top.label
    confidence := round4 top.score
    all_scores := objectFromEntries (result.map (fun r => (r.label, round4 r.score)))
    timestamp := now }

/-- The function `displayResult`.  On an empty list `result[0]` is `undefined`
and reading `top.label` throws before anything is written. -/
def displayResult (now : String) (result : List RankedScore) (st : State) : Except String State :=
  match result with
  | [] => .error (undefinedPropertyMessage "label")
  | top :: _ =>
    .ok { st with
          outputText := .json (response now top result)
          outputHidden := false
          loaderText := "Done." }

/-- The `catch` block of `classifyImage`. -/
def classifyCatch (message : String) (st : State) : State :=
  { st with
    loaderText := "Error during classification: " ++ message
    consoleErrors := st.consoleErrors ++ [message] }

/-- The function `classifyImage` up to its `await`; the flag tells whether the
classifier was invoked and a continuation is pending. -/
def classifyImageBegin (img : String) (st : State) : State × Bool :=
  if st.modelReady = false then
    ({ st with loaderText := "Model is still loading..." }, false)
  else
    let st1 := hideOutput { st with loaderText := "Classifying..." }
    if st1.classifierLoaded then
      ({ st1 with calls := st1.calls ++ [(img, LABELS)] }, true)
    else
      (classifyCatch (notAFunctionMessage "classifier") st1, false)

/-- The function `classifyImage` after its `await`, once the classifier call has
settled with `resp`. -/
def classifyImageEnd (now : String) (resp : Except String (List RankedScore)) (st : State) :
    State :=
  match resp with
  | .error m => classifyCatch m st
  | .ok result =>
    match displayResult now result st with
    | .error m => classifyCatch m st
    | .ok st' => st'

/-- The function `classifyImage` run to completion without interleaving. -/
def classifyImage (now img : String) (resp : Except String (List RankedScore)) (st : State) :
    State :=
  let r := classifyImageBegin img st
  if r.2 then classifyImageEnd now resp r.1 else r.1

/-- What the outside world answers during one click on the capture button. -/
structure CaptureEnv where
  /-- Outcome of `navigator.mediaDevices.getUserMedia`. -/
  getUserMedia : Except String Unit
  /-- Outcome of `video.play()`. -/
  play : Except String Unit
  /-- Outcome of creating, sizing and drawing the canvas (lines 104-107). -/
  draw : Except String Unit
  /-- Outcome of `canvas.toDataURL("image/png")`. -/
  toDataURL : Except String String

/-- The `catch` block of the capture handler. -/
def captureCatch (message : String) (st : State) : State :=
  { st with
    alerts := st.alerts ++ ["Camera access failed: " ++ message]
    consoleErrors := st.consoleErrors ++ [message] }

/-- The click handler of `captureBtn`, up to the `await` inside the
`classifyImage` call it ends with. -/
def captureClick (env : CaptureEnv) (st : State) : State :=
  match env.getUserMedia with
  | .error m => captureCatch m st
  | .ok _ =>
    let st1 := { st with liveStreams := st.liveStreams + 1 }
    match env.play with
    | .error m => captureCatch m st1
    | .ok _ =>
      match env.draw with
      | .error m => captureCatch m st1
      | .ok _ =>
        let st2 := { st1 with liveStreams := st1.liveStreams - 1 }
        match env.toDataURL with
        | .error m => captureCatch m st2
        | .ok url =>
          let st3 := { st2 with previewSrc := url, previewHidden := false }
          (classifyImageBegin url st3).1

/-- The `change` handler of `uploadInput` together with the `onload` callback of
its `FileReader`, up to the `await` inside the `classifyImage` call it ends with.
`file` is the data URL of the chosen file, `none` when no file was chosen. -/
def uploadChange (file : Option String) (st : State) : State :=
  match file with
  | none => st
  | some url =>
    (classifyImageBegin url { st with previewSrc := url, previewHidden := false }).1

/-- The things that happen to the page after the module start. -/
inductive Event where
  /-- The promise of `pipeline(...)` resolves. -/
  | loadResolved
  /-- The promise of `pipeline(...)` rejects. -/
  | loadRejected (message : String)
  /-- A call `classifyImage(preview)` runs up to its `await`. -/
  | classifyBegin (img : String)
  /-- A pending classifier call settles and `classifyImage` resumes. -/
  | classifyEnd (now : String) (resp : Except String (List RankedScore))
  /-- A call of `classifyImage` that runs from start to end. -/
  | classify (now img : String) (resp : Except String (List RankedScore))
  /-- A click on the capture button. -/
  | capture (env : CaptureEnv)
  /-- A file chosen in the upload input and read. -/
  | upload (file : Option String)

/-- One event applied to the page. -/
def step (st : State) : Event → State
  | .loadResolved => (loadModelEnd (.ok ()) st).1
  | .loadRejected m => (loadModelEnd (.error m) st).1
  | .classifyBegin img => (classifyImageBegin img st).1
  | .classifyEnd now resp => classifyImageEnd now resp st
  | .classify now img resp => classifyImage now img resp st
  | .capture env => captureClick env st
  | .upload file => uploadChange file st

/-- A sequence of events applied in order. -/
def run (st : State) (events : List Event) : State := events.foldl step st

end App

/-! ## `script.js` -/

namespace Script

/-- The constant `labels` of `script.js`. -/
def labels : List String :=
  ["biodegradable waste", "recyclable waste", "non-recyclable waste"]

/-- The object `jsonOutput` of `classify`. -/
structure JsonOutput where
  predicted_label : String
  confidence : ℚ
  timestamp : String
deriving DecidableEq

/-- The node `output` and the log of classifier invocations. -/
structure State where
  /-- Text of the node `output`, which shows both progress and result. -/
  outputText : Content JsonOutput
  /-- Every invocation of the classifier: image URL and prompts. -/
  calls : List (String × List String)
deriving DecidableEq

/-- The object literal of `classify`, for a first entry `best`. -/
def jsonOutput (now : String) (best : RankedScore) : JsonOutput :=
  { predicted_label := stripPrompt best.label
    confidence := round4 best.score
    timestamp := now }

/-- The function `classify`.  `loaded` is the outcome of `classifierPromise`,
`resp` that of the classifier call.  There is no `try`: any rejection or
`TypeError` ends the function and rejects its promise. -/
def classify (now imgURL : String) (loaded : Except String Unit)
    (resp : Except String (List RankedScore)) (st : State) : State × Except String Unit :=
  let st1 := { st with outputText := .text "Classifying..." }
  match loaded with
  | .error m => (st1, .error m)
  | .ok _ =>
    let st2 := { st1 with calls := st1.calls ++ [(imgURL, labels.map promptOf)] }
    match resp with
    | .error m => (st2, .error m)
    | .ok [] => (st2, .error (undefinedPropertyMessage "label"))
    | .ok (best :: _) => ({ st2 with outputText := .json (jsonOutput now best) }, .ok ())

end Script

/-- The largest score of a non-empty list, found by a scan from the left. -/
def maxScore (first : RankedScore) (rest : List RankedScore) : ℚ :=
  rest.foldl (fun m r => max m r.score) first.score

/-- The score of the last entry of `result` that carries the label `l`. -/
def lastScoreFor (result : List RankedScore) (l : String) : Option ℚ :=
  (result.reverse.find? (fun r => r.label = l)).map (·.score)

/-- A page before the script runs: nothing shown, nothing logged. -/
def App.blank : App.State :=
  { classifierLoaded := false
    modelReady := false
    loaderText := ""
    outputText := .text ""
    outputHidden := true
    previewSrc := ""
    previewHidden := true
    calls := []
    alerts := []
    consoleErrors := []
    liveStreams := 0 }

/-- The page of `script.js` before any classification. -/
def Script.blank : Script.State := { outputText := .text "", calls := [] }

/-! ## Rounding -/

theorem floor_scaled_nonneg (x : ℚ) : 0 ≤ ⌊|x| * 10000 + 1 / 2⌋ := by
  apply Int.floor_nonneg.mpr
  have := abs_nonneg x
  positivity

theorem floor_grid_add_half (n : ℤ) : ⌊(n : ℚ) / 10000 * 10000 + 1 / 2⌋ = n := by
  rw [Int.floor_eq_iff]
  constructor <;> norm_num

/-- A signed multiple of `1 / 10000` is a fixed point of `round4`. -/
theorem round4_of_grid (s : ℚ) (n : ℤ) (hn : 0 ≤ n) (hs : s = 1 ∨ s = -1) :
    round4 (s * (n : ℚ) / 10000) = s * (n : ℚ) / 10000 := by
  have hnq : (0 : ℚ) ≤ (n : ℚ) := by exact_mod_cast hn
  have habs : |s * (n : ℚ) / 10000| = (n : ℚ) / 10000 := by
    rcases hs with rfl | rfl
    · rw [one_mul, abs_of_nonneg (by positivity)]
    · rw [abs_div, abs_mul, abs_neg, abs_one, one_mul, abs_of_nonneg hnq]; norm_num
  unfold round4
  split_ifs with h1 h2
  · rfl
  · rw [habs, floor_grid_add_half]
    rcases hs with rfl | rfl
    · exfalso
      have : (0 : ℚ) ≤ 1 * (n : ℚ) / 10000 := by positivity
      linarith
    · rfl
  · rw [habs, floor_grid_add_half]
    rcases hs with rfl | rfl
    · rfl
    · have h3 : (n : ℚ) ≤ 0 := by
        by_contra hc
        push_neg at hc
        apply h2
        have : (0 : ℚ) < (n : ℚ) / 10000 := by positivity
        linarith
      have : (n : ℚ) = 0 := le_antisymm h3 hnq
      rw [this]; norm_num

/-- The rounding is odd: negative values round like their absolute value, so a
tie is resolved away from zero on both sides. -/
theorem round4_neg (x : ℚ) : round4 (-x) = -round4 x := by
  unfold round4
  rw [abs_neg]
  by_cases h : (10 : ℚ) ^ 21 ≤ |x|
  · rw [if_pos h, if_pos h]
  · rw [if_neg h, if_neg h]
    rcases lt_trichotomy x 0 with hx | hx | hx
    · have h1 : ¬ (-x < 0) := by linarith
      rw [if_pos hx, if_neg h1]; ring
    · subst hx; norm_num
    · have h1 : -x < 0 := by linarith
      have h2 : ¬ (x < 0) := by linarith
      rw [if_pos h1, if_neg h2]; ring

/-- Below `10^21` a non-negative value goes to the nearest multiple of
`1 / 10000`, the upper one on a tie. -/
theorem round4_nearest (x : ℚ) (h0 : 0 ≤ x) (h : x < (10 : ℚ) ^ 21) :
    ∃ n : ℤ, round4 x = (n : ℚ) / 10000 ∧
      (n : ℚ) / 10000 - 1 / 20000 ≤ x ∧ x < (n : ℚ) / 10000 + 1 / 20000 := by
  refine ⟨⌊x * 10000 + 1 / 2⌋, ?_, ?_, ?_⟩
  · unfold round4
    rw [abs_of_nonneg h0, if_neg (not_le.mpr h), if_neg (not_lt.mpr h0), one_mul]
  · have := Int.floor_le (x * 10000 + 1 / 2)
    linarith
  · have := Int.lt_floor_add_one (x * 10000 + 1 / 2)
    linarith

/-- C6: rounding with `Number(x.toFixed(4))` is idempotent: rounding a value
that is already rounded returns it unchanged. -/
theorem round4_idempotent (x : ℚ) : round4 (round4 x) = round4 x := by
  by_cases h : (10 : ℚ) ^ 21 ≤ |x|
  · have e : round4 x = x := by unfold round4; rw [if_pos h]
    rw [e, e]
  · have e : round4 x
        = (if x < 0 then -1 else 1) * ((⌊|x| * 10000 + 1 / 2⌋ : ℤ) : ℚ) / 10000 := by
      unfold round4; rw [if_neg h]
    rw [e]
    apply round4_of_grid _ _ (floor_scaled_nonneg x)
    split_ifs <;> simp

/-! ## Prompt text -/

theorem stringIndexOf_of_prefix (pat s : List Char) (h : pat <+: s) :
    stringIndexOf pat s = some 0 := by
  cases s with
  | nil => simp [stringIndexOf, h]
  | cons c cs => simp [stringIndexOf, h]

/-- A reported position is one where the pattern starts, and the pattern fits. -/
theorem stringIndexOf_some (pat : List Char) :
    ∀ (s : List Char) (i : Nat), stringIndexOf pat s = some i →
      pat <+: s.drop i ∧ i + pat.length ≤ s.length := by
  intro s
  induction s with
  | nil =>
    intro i h
    simp only [stringIndexOf] at h
    split_ifs at h with hp
    · cases h
      have : pat = [] := List.prefix_nil.mp hp
      subst this
      simp
  | cons c cs ih =>
    intro i h
    simp only [stringIndexOf] at h
    split_ifs at h with hp
    · cases h
      exact ⟨by simpa using hp, by simpa using hp.length_le⟩
    · cases hj : stringIndexOf pat cs with
      | none => rw [hj] at h; cases h
      | some j =>
        rw [hj] at h
        cases h
        obtain ⟨h1, h2⟩ := ih j hj
        exact ⟨by simpa using h1, by simp only [List.length_cons]; omega⟩

/-- No position is reported only when the pattern occurs nowhere. -/
theorem stringIndexOf_none (pat : List Char) :
    ∀ s : List Char, stringIndexOf pat s = none → ¬ pat <:+: s := by
  intro s
  induction s with
  | nil =>
    intro h hin
    simp only [stringIndexOf] at h
    split_ifs at h with hp
    exact hp (by
      have : pat = [] := List.infix_nil.mp hin
      subst this; exact List.prefix_refl _)
  | cons c cs ih =>
    intro h hin
    simp only [stringIndexOf] at h
    split_ifs at h with hp
    cases hj : stringIndexOf pat cs with
    | some j => rw [hj] at h; cases h
    | none =>
      rcases List.infix_cons_iff.mp hin with h1 | h1
      · exact hp h1
      · exact ih hj h1

theorem jsReplace_of_none (s pat rep : String)
    (h : stringIndexOf pat.data s.data = none) : jsReplace s pat rep = s := by
  unfold jsReplace; rw [h]

theorem jsReplace_of_some (s pat rep : String) (pos : Nat)
    (h : stringIndexOf pat.data s.data = some pos) :
    jsReplace s pat rep
      = ⟨s.data.take pos ++ rep.data ++ s.data.drop (pos + pat.data.length)⟩ := by
  unfold jsReplace; rw [h]

/-- Deleting the first occurrence of a non-empty pattern leaves a string
unchanged exactly when the pattern does not occur in it. -/
theorem jsReplace_empty_fixed_iff (t pat : String) (hpat : pat.data ≠ []) :
    jsReplace t pat "" = t ↔ ¬ pat.data <:+: t.data := by
  cases hj : stringIndexOf pat.data t.data with
  | none =>
    rw [jsReplace_of_none _ _ _ hj]
    exact ⟨fun _ => stringIndexOf_none _ _ hj, fun _ => rfl⟩
  | some j =>
    obtain ⟨hp, hlen⟩ := stringIndexOf_some _ _ _ hj
    rw [jsReplace_of_some _ _ _ _ hj]
    constructor
    · intro h
      exfalso
      have h2 := congrArg (fun u : String => u.data.length) h
      have hpos : 0 < pat.data.length := List.length_pos.mpr hpat
      simp only [List.length_append, List.length_take, List.length_drop] at h2
      have h3 : ([] : List Char).length = 0 := rfl
      omega
    · intro h
      exact absurd (hp.isInfix.trans (List.drop_suffix _ _).isInfix) h

/-- Stripping a templated prompt gives back the label. -/
theorem stripPrompt_promptOf (l : String) : stripPrompt (promptOf l) = l := by
  have h : stringIndexOf "photo of ".data (promptOf l).data = some 0 :=
    stringIndexOf_of_prefix _ _ ⟨l.data, by simp [promptOf, String.data_append]⟩
  unfold stripPrompt
  rw [jsReplace_of_some _ _ _ _ h]
  simp [promptOf, String.data_append]

/-- C5, as stated, fails: the string "photo of photo of glass" loses one
occurrence of the prompt text at each stripping, so stripping twice differs from
stripping once. -/
theorem stripPrompt_not_idempotent :
    stripPrompt "photo of photo of glass" = "photo of glass" ∧
    stripPrompt (stripPrompt "photo of photo of glass") = "glass" ∧
    stripPrompt (stripPrompt "photo of photo of glass")
      ≠ stripPrompt "photo of photo of glass" := by
  decide

/-- C5, amended: stripping twice equals stripping once exactly for the strings
whose stripped form no longer contains the prompt text; this covers every prompt
built from one of the labels of `script.js`. -/
theorem stripPrompt_idempotent_iff :
    (∀ s : String, stripPrompt (stripPrompt s) = stripPrompt s
        ↔ ¬ "photo of ".data <:+: (stripPrompt s).data) ∧
    (∀ l ∈ Script.labels,
        stripPrompt (stripPrompt (promptOf l)) = stripPrompt (promptOf l)) := by
  refine ⟨fun s => jsReplace_empty_fixed_iff (stripPrompt s) "photo of " (by decide), ?_⟩
  intro l hl
  rw [stripPrompt_promptOf]
  apply (jsReplace_empty_fixed_iff l "photo of " (by decide)).mpr
  revert l
  decide

theorem stripPrompt_idempotent_iff_witness :
    ¬ "photo of ".data <:+: (stripPrompt "photo of glass").data ∧
    stripPrompt (stripPrompt "photo of glass") = stripPrompt "photo of glass" ∧
    stripPrompt (stripPrompt (promptOf "recyclable waste"))
      = stripPrompt (promptOf "recyclable waste") :=
  ⟨by decide,
   (stripPrompt_idempotent_iff.1 "photo of glass").mpr (by decide),
   stripPrompt_idempotent_iff.2 "recyclable waste" (by decide)⟩

/-- C10: stripping the prompt built from any label returns that label, so when
the first entry of the classifier answer carries one of the submitted prompts,
the `predicted_label` written by `classify` is one of the labels of `script.js`
(the prompts submitted being the templated labels). -/
theorem prompt_roundtrip :
    (∀ l : String, stripPrompt (promptOf l) = l) ∧
    (∀ (now imgURL : String) (st : Script.State) (best : RankedScore)
        (rest : List RankedScore),
      best.label ∈ Script.labels.map promptOf →
      ∃ r : Script.JsonOutput,
        (Script.classify now imgURL (.ok ()) (.ok (best :: rest)) st).1.outputText = .json r ∧
        r.predicted_label ∈ Script.labels ∧
        (Script.classify now imgURL (.ok ()) (.ok (best :: rest)) st).1.calls
          = st.calls ++ [(imgURL, Script.labels.map promptOf)]) := by
  refine ⟨stripPrompt_promptOf, ?_⟩
  intro now imgURL st best rest hbest
  refine ⟨Script.jsonOutput now best, rfl, ?_, rfl⟩
  obtain ⟨l, hl, hlb⟩ := List.mem_map.mp hbest
  show stripPrompt best.label ∈ Script.labels
  rw [← hlb, stripPrompt_promptOf]
  exact hl

theorem prompt_roundtrip_witness :
    stripPrompt (promptOf "recyclable waste") = "recyclable waste" ∧
    ∃ r : Script.JsonOutput,
      (Script.classify "2024-01-01T00:00:00.000Z" "blob:1" (.ok ())
        (.ok [⟨"photo of recyclable waste", 81 / 100⟩, ⟨"photo of biodegradable waste", 12 / 100⟩])
        Script.blank).1.outputText = .json r ∧
      r.predicted_label ∈ Script.labels ∧
      (Script.classify "2024-01-01T00:00:00.000Z" "blob:1" (.ok ())
        (.ok [⟨"photo of recyclable waste", 81 / 100⟩, ⟨"photo of biodegradable waste", 12 / 100⟩])
        Script.blank).1.calls
        = Script.blank.calls ++ [("blob:1", Script.labels.map promptOf)] :=
  ⟨prompt_roundtrip.1 "recyclable waste",
   prompt_roundtrip.2 "2024-01-01T00:00:00.000Z" "blob:1" Script.blank
     ⟨"photo of recyclable waste", 81 / 100⟩ [⟨"photo of biodegradable waste", 12 / 100⟩]
     (by decide)⟩

/-! ## The result record -/

theorem maxScore_ge_first (first : RankedScore) (rest : List RankedScore) :
    first.score ≤ maxScore first rest := by
  unfold maxScore
  generalize first.score = m
  induction rest generalizing m with
  | nil => exact le_refl m
  | cons r rs ih => exact le_trans (le_max_left m r.score) (ih (max m r.score))

/-- When no later entry beats the first one, the scan returns the first score. -/
theorem maxScore_eq_first (first : RankedScore) (rest : List RankedScore)
    (h : ∀ r ∈ rest, r.score ≤ first.score) : maxScore first rest = first.score := by
  unfold maxScore
  induction rest with
  | nil => rfl
  | cons r rs ih =>
    have hr : r.score ≤ first.score := h r (List.mem_cons_self r rs)
    rw [List.foldl_cons, max_eq_left hr]
    exact ih (fun q hq => h q (List.mem_cons_of_mem r hq))

/-- C1, as stated, fails: for the three labels with scores 0.12, 0.81 and 0.07
returned in that order, both scripts report the first entry, "biodegradable
waste" with confidence 0.12, and not the entry with the largest score. -/
theorem first_entry_not_maximum :
    (App.response "2024-01-01T00:00:00.000Z" ⟨"biodegradable waste", 12 / 100⟩
        [⟨"biodegradable waste", 12 / 100⟩, ⟨"recyclable waste", 81 / 100⟩,
         ⟨"non-recyclable waste", 7 / 100⟩]).predicted_label = "biodegradable waste" ∧
    (App.response "2024-01-01T00:00:00.000Z" ⟨"biodegradable waste", 12 / 100⟩
        [⟨"biodegradable waste", 12 / 100⟩, ⟨"recyclable waste", 81 / 100⟩,
         ⟨"non-recyclable waste", 7 / 100⟩]).confidence = 12 / 100 ∧
    (Script.classify "2024-01-01T00:00:00.000Z" "blob:1" (.ok ())
        (.ok [⟨"photo of biodegradable waste", 12 / 100⟩, ⟨"photo of recyclable waste", 81 / 100⟩,
              ⟨"photo of non-recyclable waste", 7 / 100⟩]) Script.blank).1.outputText
      = .json ⟨"biodegradable waste", 12 / 100, "2024-01-01T00:00:00.000Z"⟩ ∧
    round4 (maxScore ⟨"biodegradable waste", 12 / 100⟩
        [⟨"recyclable waste", 81 / 100⟩, ⟨"non-recyclable waste", 7 / 100⟩]) = 81 / 100 ∧
    (12 / 100 : ℚ) ≠ 81 / 100 := by
  decide!

/-- C1, amended: for a non-empty answer whose first entry carries the largest
score (as in every answer sorted by descending score), the record shown by
`displayResult` and the record shown by `classify` both have the largest score,
rounded to 4 places, as `confidence`, and the label of that first entry (with
the prompt text removed in `script.js`) as `predicted_label`. -/
theorem first_entry_reported (now : String) (top : RankedScore) (rest : List RankedScore)
    (hfirst : ∀ r ∈ rest, r.score ≤ top.score) :
    top.score = maxScore top rest ∧
    (∀ st : App.State, ∃ st' r,
      App.displayResult now (top :: rest) st = .ok st' ∧ st'.outputText = .json r ∧
      r.confidence = round4 (maxScore top rest) ∧ r.predicted_label = top.label) ∧
    (∀ (imgURL : String) (st : Script.State), ∃ r,
      (Script.classify now imgURL (.ok ()) (.ok (top :: rest)) st).1.outputText = .json r ∧
      r.confidence = round4 (maxScore top rest) ∧ r.predicted_label = stripPrompt top.label) := by
  have hmax := maxScore_eq_first top rest hfirst
  refine ⟨hmax.symm, ?_, ?_⟩
  · intro st
    exact ⟨_, App.response now top (top :: rest), rfl, rfl, by rw [hmax]; rfl, rfl⟩
  · intro imgURL st
    exact ⟨Script.jsonOutput now top, rfl, by rw [hmax]; rfl, rfl⟩

theorem first_entry_reported_witness :
    (81 / 100 : ℚ) = maxScore ⟨"photo of recyclable waste", 81 / 100⟩
        [⟨"photo of biodegradable waste", 12 / 100⟩, ⟨"photo of non-recyclable waste", 7 / 100⟩] ∧
    (∀ st : App.State, ∃ st' r,
      App.displayResult "2024-01-01T00:00:00.000Z"
        [⟨"photo of recyclable waste", 81 / 100⟩, ⟨"photo of biodegradable waste", 12 / 100⟩,
         ⟨"photo of non-recyclable waste", 7 / 100⟩] st = .ok st' ∧
      st'.outputText = .json r ∧
      r.confidence = round4 (maxScore ⟨"photo of recyclable waste", 81 / 100⟩
        [⟨"photo of biodegradable waste", 12 / 100⟩, ⟨"photo of non-recyclable waste", 7 / 100⟩]) ∧
      r.predicted_label = "photo of recyclable waste") ∧
    (∀ (imgURL : String) (st : Script.State), ∃ r,
      (Script.classify "2024-01-01T00:00:00.000Z" imgURL (.ok ())
        (.ok [⟨"photo of recyclable waste", 81 / 100⟩, ⟨"photo of biodegradable waste", 12 / 100⟩,
              ⟨"photo of non-recyclable waste", 7 / 100⟩]) st).1.outputText = .json r ∧
      r.confidence = round4 (maxScore ⟨"photo of recyclable waste", 81 / 100⟩
        [⟨"photo of biodegradable waste", 12 / 100⟩, ⟨"photo of non-recyclable waste", 7 / 100⟩]) ∧
      r.predicted_label = stripPrompt "photo of recyclable waste") :=
  first_entry_reported "2024-01-01T00:00:00.000Z" ⟨"photo of recyclable waste", 81 / 100⟩
    [⟨"photo of biodegradable waste", 12 / 100⟩, ⟨"photo of non-recyclable waste", 7 / 100⟩]
    (by
      intro r hr
      simp only [List.mem_cons, List.mem_singleton, List.not_mem_nil, or_false] at hr
      rcases hr with rfl | rfl <;> norm_num)

/-! ## The score table of `app.js` -/

theorem objectGet_objectSet (o : List (String × ℚ)) (k : String) (v : ℚ) (k' : String) :
    App.objectGet (App.objectSet o k v) k'
      = if k = k' then some v else App.objectGet o k' := by
  induction o with
  | nil =>
    by_cases h : k = k' <;> simp [App.objectGet, App.objectSet, h]
  | cons e rest ih =>
    obtain ⟨k0, v0⟩ := e
    simp only [App.objectSet]
    by_cases h0 : k0 = k
    · subst h0
      by_cases h : k0 = k' <;> simp [App.objectGet, h]
    · rw [if_neg h0]
      by_cases h1 : k0 = k'
      · subst h1
        have h2 : ¬ k = k0 := fun h => h0 h.symm
        simp [App.objectGet, h2]
      · have e1 : App.objectGet ((k0, v0) :: App.objectSet rest k v) k'
            = App.objectGet (App.objectSet rest k v) k' := by
          simp [App.objectGet, h1]
        have e2 : App.objectGet ((k0, v0) :: rest) k' = App.objectGet rest k' := by
          simp [App.objectGet, h1]
        rw [e1, e2, ih]

theorem lastScoreFor_cons (r : RankedScore) (rs : List RankedScore) (l : String) :
    lastScoreFor (r :: rs) l
      = (lastScoreFor rs l).or (if r.label = l then some r.score else none) := by
  unfold lastScoreFor
  rw [List.reverse_cons, List.find?_append]
  cases h : List.find? (fun r => decide (r.label = l)) rs.reverse with
  | some q => simp
  | none =>
    by_cases hl : r.label = l <;> simp [hl]

/-- Assigning the rounded entries in order onto `o` leaves, under each label, the
rounded score of the last entry carrying it, or what `o` held. -/
theorem objectGet_foldl (result : List RankedScore) (l : String) :
    ∀ o : List (String × ℚ),
      App.objectGet
          ((result.map (fun r => (r.label, round4 r.score))).foldl
            (fun o e => App.objectSet o e.1 e.2) o) l
        = ((lastScoreFor result l).map round4).or (App.objectGet o l) := by
  induction result with
  | nil => intro o; simp [lastScoreFor]
  | cons r rs ih =>
    intro o
    rw [List.map_cons, List.foldl_cons, ih, objectGet_objectSet, lastScoreFor_cons]
    cases h : lastScoreFor rs l with
    | some q => simp
    | none =>
      by_cases hl : r.label = l <;> simp [hl]

/-- Reading the score table built by `displayResult`. -/
theorem objectGet_all_scores (now : String) (top : RankedScore) (result : List RankedScore)
    (l : String) :
    App.objectGet (App.response now top result).all_scores l
      = (lastScoreFor result l).map round4 := by
  show App.objectGet (App.objectFromEntries _) l = _
  unfold App.objectFromEntries
  rw [objectGet_foldl]
  simp [App.objectGet]

theorem lastScoreFor_unique (top : RankedScore) (rest : List RankedScore)
    (h : ∀ r ∈ rest, r.label ≠ top.label) :
    lastScoreFor (top :: rest) top.label = some top.score := by
  rw [lastScoreFor_cons]
  have hnone : lastScoreFor rest top.label = none := by
    unfold lastScoreFor
    rw [Option.map_eq_none', List.find?_eq_none]
    intro r hr
    simpa using h r (List.mem_reverse.mp hr)
  rw [hnone]
  simp

/-- C4, as stated, fails: when the answer carries the label "glass" twice, with
scores 0.9 and 0.1, the record has confidence 0.9 while its score table holds
0.1 under the predicted label. -/
theorem all_scores_duplicate_label :
    (App.response "2024-01-01T00:00:00.000Z" ⟨"glass", 9 / 10⟩
        [⟨"glass", 9 / 10⟩, ⟨"glass", 1 / 10⟩]).confidence = 9 / 10 ∧
    App.objectGet
      (App.response "2024-01-01T00:00:00.000Z" ⟨"glass", 9 / 10⟩
        [⟨"glass", 9 / 10⟩, ⟨"glass", 1 / 10⟩]).all_scores
      (App.response "2024-01-01T00:00:00.000Z" ⟨"glass", 9 / 10⟩
        [⟨"glass", 9 / 10⟩, ⟨"glass", 1 / 10⟩]).predicted_label = some (1 / 10) ∧
    App.objectGet
      (App.response "2024-01-01T00:00:00.000Z" ⟨"glass", 9 / 10⟩
        [⟨"glass", 9 / 10⟩, ⟨"glass", 1 / 10⟩]).all_scores
      (App.response "2024-01-01T00:00:00.000Z" ⟨"glass", 9 / 10⟩
        [⟨"glass", 9 / 10⟩, ⟨"glass", 1 / 10⟩]).predicted_label
      ≠ some (App.response "2024-01-01T00:00:00.000Z" ⟨"glass", 9 / 10⟩
        [⟨"glass", 9 / 10⟩, ⟨"glass", 1 / 10⟩]).confidence := by
  decide!

/-- C4, amended: for a non-empty answer the record of `displayResult` has the
first entry's label and rounded score; its score table holds, under every
label, the rounded score of the last entry carrying that label (and nothing
under a label that was not returned); and when the first entry's label does not
occur again in the answer, the table entry of the predicted label equals the
confidence. -/
theorem response_consistent (now : String) (top : RankedScore) (rest : List RankedScore) :
    (App.response now top (top :: rest)).predicted_label = top.label ∧
    (App.response now top (top :: rest)).confidence = round4 top.score ∧
    (∀ l : String,
      App.objectGet (App.response now top (top :: rest)).all_scores l
        = (lastScoreFor (top :: rest) l).map round4) ∧
    ((∀ r ∈ rest, r.label ≠ top.label) →
      App.objectGet (App.response now top (top :: rest)).all_scores
          (App.response now top (top :: rest)).predicted_label
        = some (App.response now top (top :: rest)).confidence) := by
  refine ⟨rfl, rfl, fun l => objectGet_all_scores now top (top :: rest) l, ?_⟩
  intro h
  rw [objectGet_all_scores]
  show (lastScoreFor (top :: rest) top.label).map round4 = some (round4 top.score)
  rw [lastScoreFor_unique top rest h]
  rfl

theorem response_consistent_witness :
    (∀ r ∈ ([⟨"glass", 1 / 10⟩] : List RankedScore), r.label ≠ "paper") ∧
    App.objectGet
      (App.response "2024-01-01T00:00:00.000Z" ⟨"paper", 9 / 10⟩
        [⟨"paper", 9 / 10⟩, ⟨"glass", 1 / 10⟩]).all_scores
      (App.response "2024-01-01T00:00:00.000Z" ⟨"paper", 9 / 10⟩
        [⟨"paper", 9 / 10⟩, ⟨"glass", 1 / 10⟩]).predicted_label
      = some (App.response "2024-01-01T00:00:00.000Z" ⟨"paper", 9 / 10⟩
        [⟨"paper", 9 / 10⟩, ⟨"glass", 1 / 10⟩]).confidence :=
  ⟨by decide,
   (response_consistent "2024-01-01T00:00:00.000Z" ⟨"paper", 9 / 10⟩
      [⟨"glass", 1 / 10⟩]).2.2.2 (by decide)⟩

/-! ## Readiness in `app.js` -/

theorem classifyCatch_flags (m : String) (st : App.State) :
    (App.classifyCatch m st).modelReady = st.modelReady ∧
    (App.classifyCatch m st).classifierLoaded = st.classifierLoaded := ⟨rfl, rfl⟩

theorem classifyImageBegin_flags (img : String) (st : App.State) :
    (App.classifyImageBegin img st).1.modelReady = st.modelReady ∧
    (App.classifyImageBegin img st).1.classifierLoaded = st.classifierLoaded := by
  unfold App.classifyImageBegin
  by_cases h : st.modelReady = false
  · rw [if_pos h]
    exact ⟨rfl, rfl⟩
  · rw [if_neg h]
    dsimp only
    split_ifs <;> exact ⟨rfl, rfl⟩

theorem classifyImageEnd_flags (now : String) (resp : Except String (List RankedScore))
    (st : App.State) :
    (App.classifyImageEnd now resp st).modelReady = st.modelReady ∧
    (App.classifyImageEnd now resp st).classifierLoaded = st.classifierLoaded := by
  rcases resp with m | result
  · exact ⟨rfl, rfl⟩
  · cases result <;> exact ⟨rfl, rfl⟩

theorem classifyImage_flags (now img : String) (resp : Except String (List RankedScore))
    (st : App.State) :
    (App.classifyImage now img resp st).modelReady = st.modelReady ∧
    (App.classifyImage now img resp st).classifierLoaded = st.classifierLoaded := by
  unfold App.classifyImage
  have hb := classifyImageBegin_flags img st
  simp only []
  split_ifs
  · have he := classifyImageEnd_flags now resp (App.classifyImageBegin img st).1
    exact ⟨he.1.trans hb.1, he.2.trans hb.2⟩
  · exact hb

theorem captureClick_flags (env : App.CaptureEnv) (st : App.State) :
    (App.captureClick env st).modelReady = st.modelReady ∧
    (App.captureClick env st).classifierLoaded = st.classifierLoaded := by
  obtain ⟨g, p, d, u⟩ := env
  unfold App.captureClick
  rcases g with mg | _
  · exact ⟨rfl, rfl⟩
  rcases p with mp | _
  · exact ⟨rfl, rfl⟩
  rcases d with md | _
  · exact ⟨rfl, rfl⟩
  rcases u with mu | url
  · exact ⟨rfl, rfl⟩
  · exact classifyImageBegin_flags url _

theorem uploadChange_flags (file : Option String) (st : App.State) :
    (App.uploadChange file st).modelReady = st.modelReady ∧
    (App.uploadChange file st).classifierLoaded = st.classifierLoaded := by
  cases file with
  | none => exact ⟨rfl, rfl⟩
  | some url => exact classifyImageBegin_flags url _

/-- No event clears `modelReady`, and none breaks the pairing of a set
`modelReady` with a loaded `classifier`. -/
theorem step_keeps_ready (st : App.State) (e : App.Event) :
    (st.modelReady = true → (App.step st e).modelReady = true) ∧
    ((st.modelReady = true → st.classifierLoaded = true) →
      (App.step st e).modelReady = true → (App.step st e).classifierLoaded = true) := by
  cases e with
  | loadResolved => exact ⟨fun _ => rfl, fun _ _ => rfl⟩
  | loadRejected m => exact ⟨fun h => h, fun h => h⟩
  | classifyBegin img =>
    have h := classifyImageBegin_flags img st
    show (_ → (App.classifyImageBegin img st).1.modelReady = true) ∧ (_ →
      (App.classifyImageBegin img st).1.modelReady = true →
      (App.classifyImageBegin img st).1.classifierLoaded = true)
    rw [h.1, h.2]
    exact ⟨fun h => h, fun h => h⟩
  | classifyEnd now resp =>
    have h := classifyImageEnd_flags now resp st
    show (_ → (App.classifyImageEnd now resp st).modelReady = true) ∧ (_ →
      (App.classifyImageEnd now resp st).modelReady = true →
      (App.classifyImageEnd now resp st).classifierLoaded = true)
    rw [h.1, h.2]
    exact ⟨fun h => h, fun h => h⟩
  | classify now img resp =>
    have h := classifyImage_flags now img resp st
    show (_ → (App.classifyImage now img resp st).modelReady = true) ∧ (_ →
      (App.classifyImage now img resp st).modelReady = true →
      (App.classifyImage now img resp st).classifierLoaded = true)
    rw [h.1, h.2]
    exact ⟨fun h => h, fun h => h⟩
  | capture env =>
    have h := captureClick_flags env st
    show (_ → (App.captureClick env st).modelReady = true) ∧ (_ →
      (App.captureClick env st).modelReady = true →
      (App.captureClick env st).classifierLoaded = true)
    rw [h.1, h.2]
    exact ⟨fun h => h, fun h => h⟩
  | upload file =>
    have h := uploadChange_flags file st
    show (_ → (App.uploadChange file st).modelReady = true) ∧ (_ →
      (App.uploadChange file st).modelReady = true →
      (App.uploadChange file st).classifierLoaded = true)
    rw [h.1, h.2]
    exact ⟨fun h => h, fun h => h⟩

theorem run_keeps_ready (events : List App.Event) :
    ∀ st : App.State, st.modelReady = true → (App.run st events).modelReady = true := by
  induction events with
  | nil => intro st h; exact h
  | cons e es ih => intro st h; exact ih (App.step st e) ((step_keeps_ready st e).1 h)

/-- In every state reached from the module start, a set `modelReady` comes with
a loaded `classifier`. -/
theorem run_ready_loaded (events : List App.Event) :
    ∀ st : App.State, (st.modelReady = true → st.classifierLoaded = true) →
      (App.run st events).modelReady = true → (App.run st events).classifierLoaded = true := by
  induction events with
  | nil => intro st h; exact h
  | cons e es ih => intro st h; exact ih (App.step st e) ((step_keeps_ready st e).2 h)

/-- A ready page with a loaded classifier dispatches the call. -/
theorem classifyImageBegin_dispatch (img : String) (st : App.State)
    (hr : st.modelReady = true) (hc : st.classifierLoaded = true) :
    App.classifyImageBegin img st
      = ({ App.hideOutput { st with loaderText := "Classifying..." } with
            calls := st.calls ++ [(img, App.LABELS)] }, true) := by
  unfold App.classifyImageBegin
  rw [if_neg (by simp [hr])]
  simp only [App.hideOutput, hc, if_true]

/-- C2: while `modelReady` is false, `classifyImage` returns without invoking
the classifier (the log of invocations is unchanged, so a count of 0 stays 0),
sets the status text to the still-loading message, and changes nothing else: the
output box and `modelReady` are as before. -/
theorem classifyImage_not_ready (now img : String) (resp : Except String (List RankedScore))
    (st : App.State) (h : st.modelReady = false) :
    App.classifyImage now img resp st = { st with loaderText := "Model is still loading..." } ∧
    (App.classifyImageBegin img st).2 = false ∧
    (App.classifyImage now img resp st).calls = st.calls ∧
    (App.classifyImage now img resp st).calls.length = st.calls.length ∧
    (App.classifyImage now img resp st).loaderText = "Model is still loading..." ∧
    (App.classifyImage now img resp st).outputText = st.outputText ∧
    (App.classifyImage now img resp st).outputHidden = st.outputHidden ∧
    (App.classifyImage now img resp st).modelReady = false := by
  have hb : App.classifyImageBegin img st
      = ({ st with loaderText := "Model is still loading..." }, false) := by
    unfold App.classifyImageBegin
    rw [if_pos h]
  have e : App.classifyImage now img resp st
      = { st with loaderText := "Model is still loading..." } := by
    unfold App.classifyImage
    rw [hb]
    rfl
  rw [e, hb]
  exact ⟨rfl, rfl, rfl, rfl, rfl, rfl, rfl, h⟩

theorem classifyImage_not_ready_witness :
    (App.startup App.blank).modelReady = false ∧
    (App.classifyImage "2024-01-01T00:00:00.000Z" "data:image/png;base64,AAAA"
        (.ok [⟨"glass waste such as jars, bulbs, or bottles", 9 / 10⟩])
        (App.startup App.blank)).calls = (App.startup App.blank).calls ∧
    (App.classifyImage "2024-01-01T00:00:00.000Z" "data:image/png;base64,AAAA"
        (.ok [⟨"glass waste such as jars, bulbs, or bottles", 9 / 10⟩])
        (App.startup App.blank)).loaderText = "Model is still loading..." :=
  ⟨rfl,
   (classifyImage_not_ready "2024-01-01T00:00:00.000Z" "data:image/png;base64,AAAA"
      (.ok [⟨"glass waste such as jars, bulbs, or bottles", 9 / 10⟩])
      (App.startup App.blank) rfl).2.2.1,
   (classifyImage_not_ready "2024-01-01T00:00:00.000Z" "data:image/png;base64,AAAA"
      (.ok [⟨"glass waste such as jars, bulbs, or bottles", 9 / 10⟩])
      (App.startup App.blank) rfl).2.2.2.2.1⟩

/-- On a ready page a rejected classifier call ends with the error text in the
status node and an empty, hidden output box. -/
theorem classifyImage_rejected (now img m : String) (st : App.State)
    (hr : st.modelReady = true) (hc : st.classifierLoaded = true) :
    (App.classifyImage now img (.error m) st).loaderText
      = "Error during classification: " ++ m ∧
    m.data <:+: (App.classifyImage now img (.error m) st).loaderText.data ∧
    (App.classifyImage now img (.error m) st).outputText = .text "" ∧
    (App.classifyImage now img (.error m) st).outputHidden = true ∧
    (App.classifyImage now img (.error m) st).calls = st.calls ++ [(img, App.LABELS)] := by
  have e : App.classifyImage now img (.error m) st
      = App.classifyCatch m
          { App.hideOutput { st with loaderText := "Classifying..." } with
            calls := st.calls ++ [(img, App.LABELS)] } := by
    unfold App.classifyImage
    rw [classifyImageBegin_dispatch img st hr hc]
    rfl
  rw [e]
  refine ⟨rfl, ?_, rfl, rfl, rfl⟩
  show m.data <:+: ("Error during classification: " ++ m).data
  rw [String.data_append]
  exact (List.suffix_append _ _).isInfix

/-- C7: in every state reached from the module start by any sequence of events
(the load settling either way, calls of `classifyImage` whole or split at their
`await`, capture clicks, uploads), a set `modelReady` stays set under all further
events; no step of `classifyImage` changes `modelReady`; and after a failed
classification on a ready page the next attempt is dispatched to the classifier
again. -/
theorem readiness_monotonic (dom : App.State) (events : List App.Event) :
    (∀ more : List App.Event,
      (App.run (App.startup dom) events).modelReady = true →
      (App.run (App.run (App.startup dom) events) more).modelReady = true) ∧
    (∀ (now img : String) (resp : Except String (List RankedScore)),
      (App.classifyImage now img resp (App.run (App.startup dom) events)).modelReady
        = (App.run (App.startup dom) events).modelReady ∧
      (App.classifyImageBegin img (App.run (App.startup dom) events)).1.modelReady
        = (App.run (App.startup dom) events).modelReady ∧
      (App.classifyImageEnd now resp (App.run (App.startup dom) events)).modelReady
        = (App.run (App.startup dom) events).modelReady) ∧
    (∀ (now img m img2 : String),
      (App.run (App.startup dom) events).modelReady = true →
      (App.classifyImage now img (.error m) (App.run (App.startup dom) events)).modelReady
        = true ∧
      (App.classifyImageBegin img2
        (App.classifyImage now img (.error m) (App.run (App.startup dom) events))).2 = true ∧
      (App.classifyImageBegin img2
        (App.classifyImage now img (.error m) (App.run (App.startup dom) events))).1.calls
        = (App.classifyImage now img (.error m) (App.run (App.startup dom) events)).calls
            ++ [(img2, App.LABELS)]) := by
  have hinv : (App.run (App.startup dom) events).modelReady = true →
      (App.run (App.startup dom) events).classifierLoaded = true :=
    run_ready_loaded events (App.startup dom) (fun h => by cases h)
  refine ⟨fun more h => run_keeps_ready more _ h, ?_, ?_⟩
  · intro now img resp
    exact ⟨(classifyImage_flags now img resp _).1, (classifyImageBegin_flags img _).1,
      (classifyImageEnd_flags now resp _).1⟩
  · intro now img m img2 h
    have hf := classifyImage_flags now img (.error m) (App.run (App.startup dom) events)
    have hr : (App.classifyImage now img (.error m)
        (App.run (App.startup dom) events)).modelReady = true := hf.1.trans h
    have hc : (App.classifyImage now img (.error m)
        (App.run (App.startup dom) events)).classifierLoaded = true := hf.2.trans (hinv h)
    rw [classifyImageBegin_dispatch img2 _ hr hc]
    exact ⟨hr, rfl, rfl⟩

theorem readiness_monotonic_witness :
    (App.run (App.startup App.blank) [.loadResolved]).modelReady = true ∧
    (App.run (App.run (App.startup App.blank) [.loadResolved])
      [.classify "2024-01-01T00:00:00.000Z" "data:image/png;base64,AAAA" (.error "network down"),
       .loadRejected "late failure",
       .capture ⟨.ok (), .error "play() failed", .ok (), .ok ""⟩,
       .upload (some "data:image/png;base64,CCCC")]).modelReady = true ∧
    (App.classifyImageBegin "data:image/png;base64,BBBB"
      (App.classifyImage "2024-01-01T00:00:00.000Z" "data:image/png;base64,AAAA"
        (.error "network down") (App.run (App.startup App.blank) [.loadResolved]))).2 = true :=
  ⟨rfl,
   (readiness_monotonic App.blank [.loadResolved]).1 _ rfl,
   ((readiness_monotonic App.blank [.loadResolved]).2.2 "2024-01-01T00:00:00.000Z"
      "data:image/png;base64,AAAA" "network down" "data:image/png;base64,BBBB" rfl).2.1⟩

/-! ## Failures that are not reported -/

/-- C3: in `script.js` a rejected classifier call is not caught.  With the error
message "network down" the promise of `classify` rejects with that message, and
the output node keeps the text "Classifying...", which does not contain it; no
record is shown. -/
theorem script_classify_rejected :
    Script.classify "2024-01-01T00:00:00.000Z" "blob:1" (.ok ()) (.error "network down")
        Script.blank
      = ({ outputText := .text "Classifying...",
           calls := [("blob:1", ["photo of biodegradable waste", "photo of recyclable waste",
                                 "photo of non-recyclable waste"])] },
         .error "network down") ∧
    ¬ "network down".data <:+: "Classifying...".data :=
  ⟨rfl, by decide⟩

/-- When the pipeline loads, `loadModel` stores the classifier, sets
`modelReady` and replaces the loading text by the text that the model is
loaded. -/
theorem loadModel_resolved (st : App.State) :
    (App.loadModel (.ok ()) st).1.modelReady = true ∧
    (App.loadModel (.ok ()) st).1.classifierLoaded = true ∧
    (App.loadModel (.ok ()) st).1.loaderText
      = "Model loaded! You can upload or capture images now." ∧
    (App.loadModel (.ok ()) st).2 = .ok () :=
  ⟨rfl, rfl, rfl, rfl⟩

/-- C8: `loadModel` does not handle a failed load.  When the pipeline fails with
the message "network down", the promise of `loadModel` rejects with it and the
page stays exactly the page of the loading phase: `modelReady` is false and the
status still shows the loading text, which does not mention the error, so no
failed state distinct from loading is reached and the error is not reported. -/
theorem loadModel_failure_not_recorded :
    (App.loadModel (.error "network down") App.blank).1 = App.startup App.blank ∧
    (App.loadModel (.error "network down") App.blank).2 = .error "network down" ∧
    (App.loadModel (.error "network down") App.blank).1.modelReady = false ∧
    (App.loadModel (.error "network down") App.blank).1.loaderText
      = "Loading model (may take 10–20s)..." ∧
    ¬ "network down".data <:+:
        (App.loadModel (.error "network down") App.blank).1.loaderText.data :=
  ⟨rfl, rfl, rfl, rfl, by decide⟩

/-- When the camera is refused no stream exists, and when every step of the
capture succeeds the tracks of the acquired stream are stopped. -/
theorem captureClick_released (st : App.State) (m url : String)
    (play draw : Except String Unit) (toDataURL : Except String String) :
    (App.captureClick ⟨.error m, play, draw, toDataURL⟩ st).liveStreams = st.liveStreams ∧
    (App.captureClick ⟨.ok (), .ok (), .ok (), .ok url⟩ st).liveStreams = st.liveStreams ∧
    (App.captureClick ⟨.ok (), .ok (), .ok (), .error m⟩ st).liveStreams = st.liveStreams := by
  refine ⟨rfl, ?_, ?_⟩
  · show (App.classifyImageBegin url _).1.liveStreams = st.liveStreams
    unfold App.classifyImageBegin
    by_cases h : st.modelReady = false
    · simp [h]
    · simp only [h, if_false]
      split_ifs <;> simp [App.hideOutput, App.classifyCatch]
  · show st.liveStreams + 1 - 1 = st.liveStreams
    omega

/-- C9: the capture handler stops the tracks only on the path where playback and
drawing succeed.  When the stream is acquired and `video.play()` throws, or when
drawing on the canvas throws, the handler ends in its `catch` block with the
stream still live. -/
theorem captureClick_leaks_stream :
    (App.captureClick ⟨.ok (), .error "play() failed", .ok (), .ok "data:image/png;base64,AAAA"⟩
        App.blank).liveStreams = 1 ∧
    (App.captureClick ⟨.ok (), .error "play() failed", .ok (), .ok "data:image/png;base64,AAAA"⟩
        App.blank).alerts = ["Camera access failed: play() failed"] ∧
    (App.captureClick ⟨.ok (), .ok (), .error "drawImage failed", .ok "data:image/png;base64,AAAA"⟩
        App.blank).liveStreams = 1 ∧
    (App.captureClick ⟨.ok (), .ok (), .ok (), .ok "data:image/png;base64,AAAA"⟩
        App.blank).liveStreams = 0 := by
  decide

end GarbageClassifier
